import Mathlib

/-!
Shallow embedding of `src/pyne/simplesim/nestedgeom.py`.

The Python module builds a doubly linked chain of "tally unit" nodes
(surfaces, cells, nested cells with lattice specifiers, universes, unions
and vectors) and renders the chain into a human comment string and an MCNP
wire string.  Python objects are modelled by an arena: a total function from
natural-number object identifiers to node records.  Attribute mutation is
pointwise function update, exactly mirroring the assignments in the source.
Python `tuple` versus `list` values (which matter because `union.__init__`
stores `*args` as a tuple and `union`/`vec` append with `+= [right]`) are
modelled by `PySeq`; concatenating a tuple with a list raises `TypeError`,
as in Python.
-/

/-- Lattice element specifiers, from classes `lin` and `rng`
(`nestedgeom.py` lines 350-417).  The third subclass `cor` is declared with
an undefined base-class name (line 420) and its class body never evaluates,
so it has no variant here; the module-level evaluation model below covers
it. -/
inductive LatSpec where
  | lin (index : Int)
  | rng (xBounds yBounds zBounds : Int × Int)
deriving DecidableEq

/-- Python sequence values as stored in `union.brothers` / `vec.sisters`:
either a tuple (what `*args` produces in `__init__`) or a list.  Elements
are arena identifiers of member nodes. -/
inductive PySeq where
  | tup (elemIds : List Nat)
  | lst (elemIds : List Nat)
deriving DecidableEq

/-- Underlying element list of a Python sequence value. -/
def PySeq.elems : PySeq → List Nat
  | .tup xs => xs
  | .lst xs => xs

/-- Python runtime errors relevant to this module: `TypeError` (tuple/list
concatenation in `union`/`vector`) and `NameError` (undefined name during
module evaluation). -/
inductive PyError where
  | typeError
  | nameError (name : String)
deriving DecidableEq

/-- Python `+` on sequence values: tuple+tuple and list+list concatenate,
mixing a tuple and a list raises `TypeError`.  This is what
`self.brothers += [right]` (line 122) and `self.sisters += [right]`
(line 134) perform. -/
def pyAdd : PySeq → PySeq → Except PyError PySeq
  | .tup xs, .tup ys => .ok (.tup (xs ++ ys))
  | .lst xs, .lst ys => .ok (.lst (xs ++ ys))
  | _, _ => .error .typeError

/-- Node kind with per-kind payload: classes `surf`, `cell`, `ucell`,
`univ`, `union`, `vec`.  The `ucell` lattice-spec attribute lives on the
node record (`Node.latSpec`), mirroring the Python instance attribute. -/
inductive NodeKind where
  | surf (name : String)
  | cell (name : String)
  | ucell (name : String)
  | univ (name : String)
  | union (brothers : PySeq)
  | vec (sisters : PySeq)
deriving DecidableEq

/-- One Python object of the module: the `up`/`down` links set by
`IUnit.__init__` / `IUnit.of`, the `lat_spec` attribute (set by
`ucell.__init__`, absent i.e. `None` on every other freshly built node),
and the kind payload. -/
structure Node where
  up : Option Nat
  down : Option Nat
  latSpec : Option LatSpec
  kind : NodeKind
deriving DecidableEq

/-- The object arena: every identifier denotes an object, as every Python
reference denotes an object.  A program only ever touches finitely many
identifiers. -/
def State : Type := Nat → Node

/-- Constructor `surf(name)` (lines 161-172 via `ICellSurf.__init__` and
`IUnit.__init__`): links `None`, no lattice attribute. -/
def mkSurf (name : String) : Node := ⟨none, none, none, .surf name⟩

/-- Constructor `cell(name)`. -/
def mkCell (name : String) : Node := ⟨none, none, none, .cell name⟩

/-- Constructor `univ(name)` (lines 245-254). -/
def mkUniv (name : String) : Node := ⟨none, none, none, .univ name⟩

/-- Constructor `ucell(name, lat_spec=None)` (lines 216-226): stores
whatever lattice spec it is given, with no validation of any kind. -/
def ucellInit (name : String) (latSpec : Option LatSpec) : Node :=
  ⟨none, none, latSpec, .ucell name⟩

/-- Python attribute assignment `node.lat_spec = spec`, the only mechanism
by which a lattice spec is ever attached to a node (used by
`ucell.__init__`, line 226).  The classes define no `__slots__` and no
properties, so attribute assignment succeeds on an instance of any of
them; the operation is total. -/
def setLatSpec (s : State) (i : Nat) (ls : LatSpec) : State :=
  fun j => if j = i then { s i with latSpec := some ls } else s j

/-- Method `IUnit.of(self, next_level_up)` (lines 102-113), the joining
operation:

    self.up = next_level_up
    self.up.down = self
    if self.down: return self.down
    else:         return self

Two pointwise arena updates in source order (the second reads the node
`self.up` now refers to), then the return value is read from the mutated
arena.  No check of any kind precedes the assignments. -/
def ofOp (s : State) (self next : Nat) : State × Nat :=
  let s1 : State := fun j => if j = self then { s self with up := some next } else s j
  let s2 : State := fun j => if j = next then { s1 next with down := some self } else s1 j
  (s2, match (s2 self).down with
       | some d => d
       | none => self)

/-- Method `IUnit.union(self, right)` (lines 119-125):

    if isinstance(self, union):
        self.brothers += [right]
        return self
    else:
        return union(self, right)

`fresh` is the identifier the Python allocator would give the new `union`
object in the `else` branch; `union.__init__(*args)` stores `brothers` as
the tuple `(self, right)`.  The `+=` in the first branch concatenates the
stored sequence with the list `[right]` and raises `TypeError` when the
stored sequence is a tuple. -/
def unionOp (s : State) (self right fresh : Nat) : Except PyError (State × Nat) :=
  match (s self).kind with
  | .union bros =>
    match pyAdd bros (.lst [right]) with
    | .ok bs =>
      .ok (fun j => if j = self then { s self with kind := .union bs } else s j, self)
    | .error e => .error e
  | _ =>
    .ok (fun j => if j = fresh then ⟨none, none, none, .union (.tup [self, right])⟩ else s j,
         fresh)

/-- Innermost node reached from `i` by following `down` links, with fuel
bounding the walk (the chains in question are finite). -/
def innermostFrom (s : State) : Nat → Nat → Nat
  | 0, i => i
  | fuel + 1, i =>
    match (s i).down with
    | none => i
    | some d => innermostFrom s fuel d

/-- External registry collaborator (`sim.sys` in the source): name-to-number
lookups for surfaces, cells and universes.  `none` models the name being
absent, in which case the source's lookup raises and the wire renderer
propagates the failure. -/
structure Registry where
  surfaceNum : String → Option Int
  cellNum : String → Option Int
  universeNum : String → Option Int

/-- Python `repr` of a quote-free name string, as produced by the `{0!r}`
format directives in `surf.comment`, `cell.comment` and `univ.comment`
(names containing quote characters are out of scope per the spec). -/
def pyRepr (s : String) : String := "'" ++ s ++ "'"

/-- Open-parenthesis boundary prefix of `IUnit.comment` / `IUnit.mcnp`
(lines 141 and 148): `" (" if self.up and not self.down else ""`. -/
def wrapL (n : Node) : String :=
  if n.up.isSome ∧ n.down = none then " (" else ""

/-- Close-parenthesis boundary suffix of `IUnit.comment` / `IUnit.mcnp`
(lines 144 and 151): `")" if self.down and not self.up else ""`. -/
def wrapR (n : Node) : String :=
  if n.down.isSome ∧ n.up = none then ")" else ""

/-- Comment text of a lattice specifier: `ILatticeSpec.comment` wraps the
subclass text in `"-lat {0}"`; `lin.comment` and `rng.comment` supply
`"linear idx {0:d}"` and the three `"{lo:d}:{hi:d}"` axis ranges. -/
def LatSpec.comment : LatSpec → String
  | .lin i => "-lat " ++ ("linear idx " ++ toString i)
  | .rng xb yb zb =>
    "-lat " ++ ("x range " ++ toString xb.1 ++ ":" ++ toString xb.2 ++
      ", y range " ++ toString yb.1 ++ ":" ++ toString yb.2 ++
      ", z range " ++ toString zb.1 ++ ":" ++ toString zb.2)

/-- Wire text of a lattice specifier: `ILatticeSpec.mcnp` wraps the subclass
text in square brackets; `lin.mcnp` and `rng.mcnp` supply the index and the
space-separated axis ranges.  The `float_format`/`sim` parameters of the
source methods are unused by these subclasses and are omitted. -/
def LatSpec.mcnp : LatSpec → String
  | .lin i => "[" ++ toString i ++ "]"
  | .rng xb yb zb =>
    "[" ++ (toString xb.1 ++ ":" ++ toString xb.2 ++
      " " ++ toString yb.1 ++ ":" ++ toString yb.2 ++
      " " ++ toString zb.1 ++ ":" ++ toString zb.2) ++ "]"

/-- A rendering task: one node, or a member list of a `union`/`vec` being
iterated by the member loops of their `comment`/`mcnp` methods. -/
inductive RTask where
  | one (i : Nat)
  | many (ids : List Nat)

/-- Recursive comment rendering, `comment` methods of all node classes
(no registry is consulted anywhere; the source methods take no `sim`).
For a single node the shape is `IUnit.comment` (lines 139-144): boundary
open paren, then the node's own text, then `" in" + up.comment()` when an
`up` link exists, then the boundary close paren.  Own texts: `surf` /
`cell` / `univ` use `{0!r}` leaf formats; `ucell` appends its lattice
spec's comment text when present; `union` and `vec` wrap their
comma-joined member texts in `" union of (...)"` / `" over (...)"`.
A `many` task joins member renderings with `","` exactly as the source's
counter loops do.  Fuel bounds recursion depth (`none` models Python's
recursion limit on a cyclic chain; it never fires on real finite chains
given enough fuel). -/
def renderComment (s : State) : Nat → RTask → Option String
  | 0, _ => none
  | _ + 1, .many [] => some ""
  | fuel + 1, .many [j] => renderComment s fuel (.one j)
  | fuel + 1, .many (j :: js) =>
    Option.bind (renderComment s fuel (.one j)) (fun a =>
      Option.bind (renderComment s fuel (.many js)) (fun rest =>
        some (a ++ "," ++ rest)))
  | fuel + 1, .one i =>
    let n := s i
    let own : Option String :=
      match n.kind with
      | .surf name => some (" surf " ++ pyRepr name)
      | .cell name => some (" cell " ++ pyRepr name)
      | .ucell name =>
        some (" cell " ++ pyRepr name ++
          (match n.latSpec with
           | some ls => ls.comment
           | none => ""))
      | .univ name => some (" univ " ++ pyRepr name)
      | .union bros =>
        Option.map (fun t => " union of (" ++ t ++ ")")
          (renderComment s fuel (.many bros.elems))
      | .vec sis =>
        Option.map (fun t => " over (" ++ t ++ ")")
          (renderComment s fuel (.many sis.elems))
    Option.bind own (fun o =>
      Option.bind
        (match n.up with
         | none => some ""
         | some u => Option.map (fun t => " in" ++ t) (renderComment s fuel (.one u)))
        (fun t => some (wrapL n ++ o ++ t ++ wrapR n)))

/-- Wire-rendering errors: a missing registry name (the `NameNotFound`
failure of a `sim.sys.*_num` lookup) or fuel exhaustion (Python's recursion
limit; never fires on real finite chains given enough fuel). -/
inductive RErr where
  | nameNotFound (name : String)
  | fuelOut
deriving DecidableEq

/-- Recursive wire rendering, `mcnp` methods of all node classes.  For a
single node the shape is `IUnit.mcnp` (lines 146-151): boundary open paren,
the node's own text, `" <" + up.mcnp(...)` when an `up` link exists, then
the boundary close paren.  Own texts: `surf` → `" {num}"`, `cell` →
`" {num}"`, `ucell` → `" {num}{lat}"`, `univ` → `" U={num}"`, each number
looked up in the registry with failure propagated; `union` wraps the
plainly concatenated member texts in `" (...)"`; `vec` concatenates member
texts with no separator and no wrapping.  As in the source, a node's own
lookup is evaluated before the outward recursion (it is an argument to the
`super` call), so its failure wins.  A `many` task concatenates member
renderings with no separator, as both `mcnp` member loops do. -/
def renderMcnp (s : State) (reg : Registry) : Nat → RTask → Except RErr String
  | 0, _ => .error .fuelOut
  | _ + 1, .many [] => .ok ""
  | fuel + 1, .many [j] => renderMcnp s reg fuel (.one j)
  | fuel + 1, .many (j :: js) =>
    Except.bind (renderMcnp s reg fuel (.one j)) (fun a =>
      Except.bind (renderMcnp s reg fuel (.many js)) (fun rest =>
        .ok (a ++ rest)))
  | fuel + 1, .one i =>
    let n := s i
    let own : Except RErr String :=
      match n.kind with
      | .surf name =>
        match reg.surfaceNum name with
        | none => .error (.nameNotFound name)
        | some k => .ok (" " ++ toString k)
      | .cell name =>
        match reg.cellNum name with
        | none => .error (.nameNotFound name)
        | some k => .ok (" " ++ toString k)
      | .ucell name =>
        match reg.cellNum name with
        | none => .error (.nameNotFound name)
        | some k =>
          .ok (" " ++ toString k ++
            (match n.latSpec with
             | some ls => ls.mcnp
             | none => ""))
      | .univ name =>
        match reg.universeNum name with
        | none => .error (.nameNotFound name)
        | some k => .ok (" U=" ++ toString k)
      | .union bros =>
        Except.map (fun t => " (" ++ t ++ ")")
          (renderMcnp s reg fuel (.many bros.elems))
      | .vec sis => renderMcnp s reg fuel (.many sis.elems)
    Except.bind own (fun o =>
      Except.bind
        (match n.up with
         | none => .ok ""
         | some u => Except.map (fun t => " <" ++ t) (renderMcnp s reg fuel (.one u)))
        (fun t => .ok (wrapL n ++ o ++ t ++ wrapR n)))

/-- One top-level `class` statement of the module: the class name and the
base-class name written in its header. -/
structure ClassDef where
  name : String
  base : String
deriving DecidableEq

/-- The twelve top-level class statements of `nestedgeom.py` in source
order, each with the base name exactly as written in the source.  The last
entry is line 420: `class cor(LatticeSpec)` — the base name written there
is `LatticeSpec`, not `ILatticeSpec`. -/
def nestedgeomClasses : List ClassDef :=
  [⟨"IUnit", "object"⟩,
   ⟨"ICellSurf", "IUnit"⟩,
   ⟨"surf", "ICellSurf"⟩,
   ⟨"cell", "ICellSurf"⟩,
   ⟨"ucell", "cell"⟩,
   ⟨"univ", "IUnit"⟩,
   ⟨"union", "IUnit"⟩,
   ⟨"vec", "IUnit"⟩,
   ⟨"ILatticeSpec", "object"⟩,
   ⟨"lin", "ILatticeSpec"⟩,
   ⟨"rng", "ILatticeSpec"⟩,
   ⟨"cor", "LatticeSpec"⟩]

/-- Python evaluation of a module's top-level class statements: each class
statement evaluates its base-class expression in the current namespace and
raises `NameError` if the name is unbound, else binds the class name.
`env` starts with the builtins the module can see (`object`). -/
def evalClasses : List ClassDef → List String → Except PyError (List String)
  | [], env => .ok env
  | c :: rest, env =>
    if c.base ∈ env then evalClasses rest (env ++ [c.name])
    else .error (.nameError c.base)

/-- Except-monad analogue of `Option.bind_eq_some`: a bound computation
yields `ok` exactly when both stages do. -/
theorem exceptBind_eq_ok {ε α β : Type} {x : Except ε α} {f : α → Except ε β} {b : β} :
    Except.bind x f = .ok b ↔ ∃ a, x = .ok a ∧ f a = .ok b := by
  cases x <;> simp [Except.bind]

/-- After `ofOp s a b`, node `a` carries `up = some b` (covers `a = b`,
where Python mutates the one shared object twice). -/
theorem ofOp_up_self (s : State) (a b : Nat) : ((ofOp s a b).1 a).up = some b := by
  by_cases hab : a = b <;> simp [ofOp, hab]

/-- After `ofOp s a b`, node `b` carries `down = some a`. -/
theorem ofOp_down_next (s : State) (a b : Nat) : ((ofOp s a b).1 b).down = some a := by
  simp [ofOp]

/-- `ofOp` touches only the two nodes it links. -/
theorem ofOp_frame (s : State) (a b p : Nat) (hpa : p ≠ a) (hpb : p ≠ b) :
    (ofOp s a b).1 p = s p := by
  simp [ofOp, hpa, hpb]

/-- Three fresh leaf nodes `a`, `b`, `c`, the input of the union-folding
scenario. -/
def triState : State :=
  fun j =>
    if j = 0 then mkSurf "a"
    else if j = 1 then mkSurf "b"
    else if j = 2 then mkSurf "c"
    else mkSurf "unused"

/-- Arena after `union(a, b)` allocated object 3: its `brothers` attribute
is the tuple `(a, b)`, exactly what `union.__init__(*args)` stores. -/
def triStateU : State :=
  fun j => if j = 3 then ⟨none, none, none, .union (.tup [0, 1])⟩ else triState j

/-- C1: folding a third member into an existing union is claimed to extend
the alternative list to `[a, b, c]` without raising.  In the code it
raises: `union.__init__` stores `brothers` as a tuple, and
`IUnit.union`'s append branch executes `self.brothers += [right]`, which
concatenates a list onto that tuple — a `TypeError` in Python.  The first
call builds the two-member union; the second call, on that union, fails. -/
theorem c1_union_fold_raises :
    unionOp triState 0 1 3 = .ok (triStateU, 3) ∧
    (triStateU 3).kind = .union (.tup [0, 1]) ∧
    unionOp triStateU 3 2 4 = .error .typeError :=
  ⟨rfl, rfl, rfl⟩

/-- Two-level chain `surf 'a'` inside `univ 'b'`, plus a spare outer
`cell 'c'`: node 0 already has an `up` link. -/
def chainState : State :=
  fun j =>
    if j = 0 then { mkSurf "a" with up := some 1 }
    else if j = 1 then { mkUniv "b" with down := some 0 }
    else if j = 2 then mkCell "c"
    else mkSurf "unused"

/-- Registry for the two-level chain: surface a is 1, universe b is 2,
cell c is 3. -/
def chainReg : Registry :=
  ⟨fun n => if n = "a" then some 1 else none,
   fun n => if n = "c" then some 3 else none,
   fun n => if n = "b" then some 2 else none⟩

/-- C2 counterexample: node 0 already has `up = some 1`, yet joining it to
node 2 raises nothing — `ofOp` is total, returns node 0 as usual, and the
`up` link now silently reads `some 2`.  No `AlreadyNested` check exists in
`IUnit.of`. -/
theorem c2_cex_rejoin_succeeds :
    (chainState 0).up = some 1 ∧
    (ofOp chainState 0 2).2 = 0 ∧
    ((ofOp chainState 0 2).1 0).up = some 2 :=
  ⟨rfl, rfl, rfl⟩

/-- C2 amended: `IUnit.of` performs no already-nested check; joining a unit
whose `up` is already set always succeeds and silently overwrites the
existing link with the new outer unit. -/
theorem c2_join_overwrites_up (s : State) (a b u : Nat)
    (h : (s a).up = some u) (hub : u ≠ b) :
    ((ofOp s a b).1 a).up = some b ∧ ((ofOp s a b).1 a).up ≠ some u := by
  refine ⟨ofOp_up_self s a b, ?_⟩
  rw [ofOp_up_self s a b]
  intro hc
  exact hub (Option.some.inj hc).symm

/-- C2 witness: the amended overwrite theorem applied to the concrete
already-nested chain. -/
theorem c2_join_overwrites_up_witness :
    ((ofOp chainState 0 2).1 0).up = some 2 ∧
    ((ofOp chainState 0 2).1 0).up ≠ some 1 :=
  c2_join_overwrites_up chainState 0 2 1 rfl (by decide)

/-- Four fresh nodes for building the chain `a < b < c < d` step by step. -/
def quadState : State :=
  fun j =>
    if j = 0 then mkSurf "a"
    else if j = 1 then mkCell "b"
    else if j = 2 then mkCell "c"
    else if j = 3 then mkCell "d"
    else mkSurf "unused"

/-- Arena after `of(a, b)`. -/
def quadState1 : State := (ofOp quadState 0 1).1

/-- Arena after `of(a, b)` then `of(b, c)`. -/
def quadState2 : State := (ofOp quadState1 1 2).1

/-- C3 counterexample: after building `a < b < c`, joining `c` under `d`
returns `c.down`, which is node 1 (`b`) — a node that still has a `down`
link of its own.  The innermost node of the chain below `c` is node 0
(`a`), so the returned unit is not the innermost descendant; `IUnit.of`
walks exactly one `down` step, not the whole chain. -/
theorem c3_cex_not_innermost :
    (ofOp quadState 0 1).2 = 0 ∧
    (ofOp quadState1 1 2).2 = 0 ∧
    (ofOp quadState2 2 3).2 = 1 ∧
    ((ofOp quadState2 2 3).1 1).down = some 0 ∧
    innermostFrom (ofOp quadState2 2 3).1 9 2 = 0 ∧
    (ofOp quadState2 2 3).2 ≠ innermostFrom (ofOp quadState2 2 3).1 9 2 :=
  ⟨rfl, rfl, rfl, rfl, rfl, by decide⟩

/-- C3 amended: `join(inner, outer)` returns `inner`'s direct `down` child
when one exists, else `inner` itself — one step down, which is the
innermost node only when the chain below `inner` has length at most one. -/
theorem c3_returns_direct_down (s : State) (a b : Nat) (hab : a ≠ b) :
    (ofOp s a b).2 = ((s a).down).getD a := by
  simp only [ofOp, hab]
  cases h : (s a).down with
  | none => simp [hab, h]
  | some d => simp [hab, h]

/-- C3 witness: the one-step-down return applied to the concrete chain. -/
theorem c3_returns_direct_down_witness :
    (ofOp quadState2 2 3).2 = ((quadState2 2).down).getD 2 :=
  c3_returns_direct_down quadState2 2 3 (by decide)

/-- C4: in both renderers, the output of a node decomposes as the boundary
open paren, the node's own text plus outward suffix, and the boundary close
paren; the open paren is `" ("` exactly when the node has an `up` link and
no `down` link, the close paren is `")"` exactly when it has a `down` link
and no `up` link, and a node with neither or both links gets an empty
wrapper on that side. -/
theorem c4_boundary_parens :
    (∀ (s : State) (fuel i : Nat) (out : String),
        renderComment s (fuel + 1) (.one i) = some out →
        ∃ o t, out = wrapL (s i) ++ o ++ t ++ wrapR (s i)) ∧
    (∀ (s : State) (reg : Registry) (fuel i : Nat) (out : String),
        renderMcnp s reg (fuel + 1) (.one i) = .ok out →
        ∃ o t, out = wrapL (s i) ++ o ++ t ++ wrapR (s i)) ∧
    (∀ n : Node,
        (wrapL n = " (" ↔ (n.up.isSome ∧ n.down = none)) ∧
        (¬(n.up.isSome ∧ n.down = none) → wrapL n = "") ∧
        (wrapR n = ")" ↔ (n.down.isSome ∧ n.up = none)) ∧
        (¬(n.down.isSome ∧ n.up = none) → wrapR n = "")) := by
  refine ⟨?_, ?_, ?_⟩
  · intro s fuel i out h
    simp only [renderComment, Option.bind_eq_some, Option.some.injEq] at h
    obtain ⟨o, _, t, _, he⟩ := h
    exact ⟨o, t, he.symm⟩
  · intro s reg fuel i out h
    simp only [renderMcnp, exceptBind_eq_ok, Except.ok.injEq] at h
    obtain ⟨o, _, t, _, he⟩ := h
    exact ⟨o, t, he.symm⟩
  · intro n
    refine ⟨?_, ?_, ?_, ?_⟩
    · by_cases hc : n.up.isSome ∧ n.down = none <;> simp [wrapL, hc]
    · intro hc
      simp [wrapL, hc]
    · by_cases hc : n.down.isSome ∧ n.up = none <;> simp [wrapR, hc]
    · intro hc
      simp [wrapR, hc]

/-- C4 witness: the decomposition and the wrapper characterization applied
to the concrete two-level chain and its registry. -/
theorem c4_boundary_parens_witness :
    (∃ o t, " ( surf 'a' in univ 'b')" = wrapL (chainState 0) ++ o ++ t ++ wrapR (chainState 0)) ∧
    (∃ o t, " ( 1 < U=2)" = wrapL (chainState 0) ++ o ++ t ++ wrapR (chainState 0)) ∧
    wrapL (chainState 0) = " (" ∧
    wrapR (chainState 1) = ")" :=
  ⟨c4_boundary_parens.1 chainState 2 0 " ( surf 'a' in univ 'b')" rfl,
   c4_boundary_parens.2.1 chainState chainReg 2 0 " ( 1 < U=2)" rfl,
   (c4_boundary_parens.2.2 (chainState 0)).1.mpr (by decide),
   (c4_boundary_parens.2.2 (chainState 1)).2.2.1.mpr (by decide)⟩

/-- C5: `ofOp` establishes `inner.up = outer` and `outer.down = inner`
together, in one call, for every pair of nodes; afterwards neither link is
set without the other. -/
theorem c5_join_links_pair (s : State) (a b : Nat) :
    ((ofOp s a b).1 a).up = some b ∧ ((ofOp s a b).1 b).down = some a :=
  ⟨ofOp_up_self s a b, ofOp_down_next s a b⟩

/-- Standalone nested cell `D` carrying the lattice range spec
`x in 0:1, y in 0:0, z in 0:2`. -/
def latState : State :=
  fun j =>
    if j = 0 then ⟨none, none, some (.rng (0, 1) (0, 0) (0, 2)), .ucell "D"⟩
    else mkSurf "unused"

/-- Registry for the lattice scenario: cell D is 5. -/
def latReg : Registry :=
  ⟨fun _ => none, fun n => if n = "D" then some 5 else none, fun _ => none⟩

/-- C6: the wire text of the nested cell is its registry number directly
followed by the bracket-delimited range text `[0:1 0:0 0:2]` (the space
precedes the number), and its comment text contains
`x range 0:1, y range 0:0, z range 0:2`. -/
theorem c6_lattice_range_render :
    renderMcnp latState latReg 2 (.one 0) = .ok (" 5" ++ "[0:1 0:0 0:2]") ∧
    renderComment latState 2 (.one 0) =
      some (" cell 'D'-lat " ++ "x range 0:1, y range 0:0, z range 0:2") :=
  ⟨rfl, rfl⟩

/-- C7: comment rendering takes no registry at all (its result type has no
error case for lookups), while wire rendering fails with the registry's
`NameNotFound` for a surface whose name is absent — before recursing
outward, never substituting a default — and propagates an error coming from
an outer level unmodified.  Part three shows the comment of the very node
whose wire rendering failed still succeeds. -/
theorem c7_name_not_found :
    (∀ (s : State) (reg : Registry) (fuel i : Nat) (name : String),
        (s i).kind = .surf name → reg.surfaceNum name = none →
        renderMcnp s reg (fuel + 1) (.one i) = .error (.nameNotFound name)) ∧
    (∀ (s : State) (reg : Registry) (fuel i : Nat) (name : String) (k : Int) (u : Nat) (e : RErr),
        (s i).kind = .cell name → reg.cellNum name = some k →
        (s i).up = some u → renderMcnp s reg fuel (.one u) = .error e →
        renderMcnp s reg (fuel + 1) (.one i) = .error e) ∧
    (∀ (s : State) (fuel i : Nat) (name : String),
        (s i).kind = .surf name → (s i).up = none →
        ∃ str, renderComment s (fuel + 1) (.one i) = some str) := by
  refine ⟨?_, ?_, ?_⟩
  · intro s reg fuel i name hk hr
    simp [renderMcnp, hk, hr, Except.bind]
  · intro s reg fuel i name k u e hk hr hu he
    simp [renderMcnp, hk, hr, hu, he, Except.bind, Except.map]
  · intro s fuel i name hk hu
    refine ⟨wrapL (s i) ++ (" surf " ++ pyRepr name) ++ wrapR (s i), ?_⟩
    simp [renderComment, hk, hu, Option.bind]

/-- Surface `missing` (absent from the registry) with a cell `c` nested
under it, for the registry-failure scenario. -/
def missState : State :=
  fun j =>
    if j = 0 then mkSurf "missing"
    else if j = 1 then { mkCell "c" with up := some 0 }
    else mkSurf "unused"

/-- Registry lacking `missing`: only cell c is mapped, to 7. -/
def missReg : Registry :=
  ⟨fun _ => none, fun n => if n = "c" then some 7 else none, fun _ => none⟩

/-- C7 witness: the missing surface fails with `NameNotFound "missing"`,
the nested cell propagates that same error unmodified, and the comment of
the failing node succeeds. -/
theorem c7_name_not_found_witness :
    renderMcnp missState missReg 3 (.one 0) = .error (.nameNotFound "missing") ∧
    renderMcnp missState missReg 4 (.one 1) = .error (.nameNotFound "missing") ∧
    (∃ str, renderComment missState 5 (.one 0) = some str) :=
  ⟨c7_name_not_found.1 missState missReg 2 0 "missing" rfl rfl,
   c7_name_not_found.2.1 missState missReg 3 1 "c" 7 0 (.nameNotFound "missing")
     rfl rfl rfl (c7_name_not_found.1 missState missReg 2 0 "missing" rfl rfl),
   c7_name_not_found.2.2 missState 4 0 "missing" rfl rfl⟩

/-- A single standalone surface node, target of the lattice-attachment
counterexample. -/
def soloState : State :=
  fun j => if j = 0 then mkSurf "a" else mkSurf "unused"

/-- C8 counterexample: attaching a lattice spec to a surface — not a
nested-cell — node raises nothing.  `setLatSpec` (Python attribute
assignment, the only attachment mechanism in the module) is total: the
spec is silently stored on the surface node, and rendering afterwards also
raises no lattice-related error. -/
theorem c8_cex_attach_to_surf :
    (soloState 0).kind = .surf "a" ∧
    setLatSpec soloState 0 (.lin 3) 0 = ⟨none, none, some (.lin 3), .surf "a"⟩ ∧
    renderComment (setLatSpec soloState 0 (.lin 3)) 1 (.one 0) = some " surf 'a'" :=
  ⟨rfl, rfl, rfl⟩

/-- C8 amended: no `InvalidLatticeAttachment` check exists anywhere.
`ucell.__init__` stores any given lattice spec without validation, and
attribute assignment attaches a spec to a node of any kind without error;
the only restriction is structural — `ucell` is the only constructor with a
lattice-spec parameter. -/
theorem c8_no_validation (name : String) (ls : Option LatSpec)
    (s : State) (i : Nat) (spec : LatSpec) (j : Nat) :
    ucellInit name ls = ⟨none, none, ls, .ucell name⟩ ∧
    setLatSpec s i spec j = if j = i then { s i with latSpec := some spec } else s j :=
  ⟨rfl, rfl⟩

/-- C9: evaluating the module's top-level class statements fails at
`class cor(LatticeSpec)` with a `NameError` for the undefined name
`LatticeSpec` — no class of that name is defined anywhere in the module,
while `ILatticeSpec` (the actual base of the other two lattice specifiers)
is.  Importing the module therefore raises, and `cor` is unusable. -/
theorem c9_cor_base_name_error :
    evalClasses nestedgeomClasses ["object"] = .error (.nameError "LatticeSpec") ∧
    "ILatticeSpec" ∈ nestedgeomClasses.map ClassDef.name ∧
    (nestedgeomClasses.map ClassDef.name).contains "LatticeSpec" = false :=
  ⟨rfl, by decide, by decide⟩

/-- C10: when the outer node `b` already has `down = some p` (with `p`
linked back via `up = some b`), `ofOp s a b` silently repoints `b.down` to
`a` while leaving `p.up = some b` in place — the bidirectional pairing
invariant is broken: `p.up` names `b` but `b.down` no longer names `p`. -/
theorem c10_join_dangles_previous_down (s : State) (a b p : Nat)
    (hpa : p ≠ a) (hpb : p ≠ b)
    (hup : (s p).up = some b) (hdown : (s b).down = some p) :
    ((ofOp s a b).1 p).up = some b ∧
    ((ofOp s a b).1 b).down = some a ∧
    ((ofOp s a b).1 b).down ≠ some p := by
  refine ⟨?_, ofOp_down_next s a b, ?_⟩
  · rw [ofOp_frame s a b p hpa hpb]
    exact hup
  · rw [ofOp_down_next s a b]
    intro hc
    exact hpa (Option.some.inj hc).symm

/-- Chain `p` inside `o` with a fresh `a`, for the dangling-link witness:
node 0 is `p` (up = 1), node 1 is `o` (down = 0), node 2 is `a`. -/
def dangleState : State :=
  fun j =>
    if j = 0 then { mkCell "p" with up := some 1 }
    else if j = 1 then { mkUniv "o" with down := some 0 }
    else if j = 2 then mkSurf "a"
    else mkSurf "unused"

/-- C10 witness: joining the fresh node 2 under node 1 leaves node 0
pointing up at node 1 while node 1's down link now names node 2. -/
theorem c10_join_dangles_previous_down_witness :
    ((ofOp dangleState 2 1).1 0).up = some 1 ∧
    ((ofOp dangleState 2 1).1 1).down = some 2 ∧
    ((ofOp dangleState 2 1).1 1).down ≠ some 0 :=
  c10_join_dangles_previous_down dangleState 2 1 0 (by decide) (by decide) rfl rfl
